import Mathlib

/-!
Shallow embedding of the payroll payment orchestration of the
Human-Resource-Information-System repository
(`src/lib/payroll.ts`, `src/lib/flutterwave.ts`,
`src/app/api/finance/banks/route.ts`).

Modelling conventions:
* JavaScript numbers are modelled as rationals (`ℚ`).  `NaN`/`Infinity`
  are not modelled; floating-point rounding is irrelevant at the scale of
  the claims considered here.
* A JavaScript string that may be `undefined`/`null` is `Option String`;
  JS truthiness of such a value (`!s`) is `jsTruthy`.
* A JS `Date` is observed by this code only through `getFullYear`,
  `getMonth` and ordering against first-of-month boundaries, so a date is
  modelled as a month index `year * 12 + month` (which is exactly how
  `new Date(y, m, 1)` normalises an out-of-range month) plus a
  non-negative offset inside the month.
* The Prisma database is a record of lists of rows; `findUnique` /
  `findFirst` are `List.find?`, `create` appends, `update` maps over the
  rows with the matching key.  Database writes are modelled as total
  (the claims under study concern validation and provider failures).
* The external payment providers (the Flutterwave SDK call
  `flutterwave.Transfer.initiate`, `flutterwave.Transaction.verify`, and
  the Daraja functions `initiateMpesaPayment` / `verifyMpesaPayment`,
  whose implementation lives outside the embedded fragment) are oracles
  packaged in an `Env`; a rejected promise / thrown error is
  `Except.error`.  Every provider invocation is additionally recorded in
  a trace of `ProviderCall` events so that "which provider was called"
  is observable.
-/

namespace HRIS

/-- JS `Math.round` on rationals: round half toward positive infinity. -/
def jsRound (q : ℚ) : Int := Int.floor (q + 1/2)

/-- JS `a || b` for possibly-undefined strings: an empty string is falsy. -/
def jsOrStr (a b : Option String) : Option String :=
  match a with
  | some s => if s.isEmpty then b else some s
  | none => b

/-- JS truthiness of a possibly-undefined string. -/
def jsTruthy (a : Option String) : Bool :=
  match a with
  | some s => !s.isEmpty
  | none => false

/-- JS `String.prototype.trim`: strip whitespace from both ends. -/
def trimChars (cs : List Char) : List Char :=
  ((cs.dropWhile Char.isWhitespace).reverse.dropWhile Char.isWhitespace).reverse

/-- JS `s.trim()`. -/
def jsTrim (s : String) : String := ⟨trimChars s.data⟩

/-- Prisma `update` semantics for a field fed a possibly-`undefined`
value: `undefined` leaves the stored value unchanged. -/
def prismaSet (old new : Option String) : Option String :=
  match new with
  | some v => some v
  | none => old

/-- A JS `Date` as observed by the payroll code: `monthIdx` is
`getFullYear () * 12 + getMonth ()` and `offset` the position inside the
month (`0` is the first instant of the month). -/
structure JsDate where
  monthIdx : Int
  offset : Nat
deriving DecidableEq, Repr

/-- `new Date(d.getFullYear(), d.getMonth(), 1)`. -/
def monthStart (d : JsDate) : JsDate := ⟨d.monthIdx, 0⟩

/-- `new Date(d.getFullYear(), d.getMonth() + 1, 1)` (JS normalises a
month of 12 into the next year, i.e. increments the month index). -/
def nextMonthStart (d : JsDate) : JsDate := ⟨d.monthIdx + 1, 0⟩

/-- Prisma `gte` on dates. -/
def dateLe (a b : JsDate) : Bool :=
  decide (a.monthIdx < b.monthIdx) ||
    (decide (a.monthIdx = b.monthIdx) && decide (a.offset ≤ b.offset))

/-- Prisma `lt` on dates. -/
def dateLt (a b : JsDate) : Bool :=
  decide (a.monthIdx < b.monthIdx) ||
    (decide (a.monthIdx = b.monthIdx) && decide (a.offset < b.offset))

/-- Abstraction of
`month.toLocaleString('default', ...)`: an injective rendering of the
month; the payroll code only interpolates it into messages. -/
def monthLabel (d : JsDate) : String := toString d.monthIdx

/-! ## Database rows (from the Prisma usage sites) -/

structure User where
  id : String
  name : Option String
  role : String
deriving DecidableEq, Repr

structure Bank where
  id : String
  name : String
  code : Option String
deriving DecidableEq, Repr

structure Employee where
  id : String
  userId : String
  staffNo : Option String
  salary : ℚ
  bankId : Option String
deriving DecidableEq, Repr

structure Payslip where
  id : Nat
  employeeId : String
  month : JsDate
  grossSalary : ℚ
  deductions : ℚ
  netPay : ℚ
  paid : Bool
  payoutRef : Option String
deriving DecidableEq, Repr

structure Payout where
  ref : String
  employeeId : String
  amount : ℚ
  status : String
  type : String
  bank : Option String
  transactionId : Option String
  createdAt : JsDate
deriving DecidableEq, Repr

structure Notification where
  title : String
  message : String
  type : String
  recipientId : String
deriving DecidableEq, Repr

structure Activity where
  employeeId : String
  actionType : String
  description : String
  module : String
deriving DecidableEq, Repr

/-- The relational store. `nextPayslipId` / `nextBankId` model id
generation for created rows. -/
structure Db where
  users : List User
  employees : List Employee
  banks : List Bank
  payslips : List Payslip
  payouts : List Payout
  notifications : List Notification
  activities : List Activity
  nextPayslipId : Nat
  nextBankId : Nat
deriving DecidableEq, Repr

/-- `prisma.employee.findUnique(\x7b where: \x7b id \x7d \x7d)`. -/
def findEmployee (db : Db) (id : String) : Option Employee :=
  db.employees.find? (fun e => e.id == id)

/-- The `user` relation included with an employee. -/
def findUser (db : Db) (id : String) : Option User :=
  db.users.find? (fun u => u.id == id)

/-- The `bank` relation included with an employee. -/
def employeeBank (db : Db) (e : Employee) : Option Bank :=
  match e.bankId with
  | some b => db.banks.find? (fun bk => bk.id == b)
  | none => none

/-- `prisma.user.findFirst(\x7b where: \x7b role: 'ADMIN' \x7d \x7d)`. -/
def findAdmin (db : Db) : Option User :=
  db.users.find? (fun u => u.role == "ADMIN")

/-- `prisma.notification.create`. -/
def addNotification (db : Db) (n : Notification) : Db :=
  { db with notifications := db.notifications ++ [n] }

/-! ## External payment providers -/

/-- The fields the payroll code reads off a Flutterwave response object
(`id`, `reference`, `flwRef` after a transfer, `status` after a
verification); each may be absent. -/
structure FlwData where
  id : Option String
  reference : Option String
  flwRef : Option String
  status : Option String
deriving DecidableEq, Repr

/-- A Flutterwave SDK response: the code probes `response.data`, then
`response.body?.data`, then falls back to the response object itself. -/
structure FlwResponse where
  data : Option FlwData
  bodyData : Option FlwData
  self : FlwData
deriving DecidableEq, Repr

/-- `response.data || response.body?.data || response` (a response
object is always truthy, so the chain never yields `undefined`). -/
def flwResponseData (r : FlwResponse) : FlwData :=
  match r.data with
  | some d => d
  | none =>
    match r.bodyData with
    | some d => d
    | none => r.self

/-- The payload built by `processBankTransfer` for
`flutterwave.Transfer.initiate`. -/
structure FlwPayload where
  account_number : String
  amount : Int
  account_bank : String
  narration : String
  currency : String
  beneficiary_name : String
deriving DecidableEq, Repr

/-- Daraja B2C response as read by the payroll code
(`response.ConversationID`). -/
structure MpesaB2CResponse where
  ConversationID : String
deriving DecidableEq, Repr

/-- Daraja transaction-status result as read by the payroll code
(`verification.Result.ResultCode`). -/
structure MpesaResultBody where
  ResultCode : Int
deriving DecidableEq, Repr

structure MpesaVerification where
  Result : MpesaResultBody
deriving DecidableEq, Repr

/-- One invocation of an external payment provider, as recorded in the
call trace.  `callBank` is the invocation of `processBankTransfer`
(the bank-transfer aggregator entry point), `callFlwInitiate` the
underlying `flutterwave.Transfer.initiate` SDK call, `callMpesa` the
invocation of `initiateMpesaPayment` (the mobile-money provider). -/
inductive ProviderCall where
  | callBank (amount : ℚ) (accountNumber accountBank narration beneficiaryName : String)
  | callFlwInitiate (payload : FlwPayload)
  | callMpesa (amount : ℚ) (phone : String) (remarks : String)
deriving DecidableEq, Repr

/-- The external world: provider behaviours and the clock.  A thrown
error / rejected promise is `Except.error`. -/
structure Env where
  flutterwaveConfigured : Bool
  transferInitiate : FlwPayload → Except String FlwResponse
  initiateMpesa : ℚ → String → String → Except String MpesaB2CResponse
  verifyFlw : Option String → Except String FlwResponse
  verifyMpesa : Option String → Except String MpesaVerification
  nowMs : Nat
  now : JsDate

/-- `processBankTransfer` from `src/lib/flutterwave.ts`: validates the
amount, rounds it with `Math.round`, and forwards the payload to
`flutterwave.Transfer.initiate`.  Returns the trace of SDK calls made
together with the outcome (its `catch` block rethrows, so errors
propagate). -/
def processBankTransfer (env : Env) (amount : ℚ)
    (accountNumber accountBank narration beneficiaryName : String) :
    List ProviderCall × Except String FlwResponse :=
  if !env.flutterwaveConfigured then
    ([], .error "Flutterwave not configured. Payment processing unavailable.")
  else if amount ≤ 0 then
    ([], .error ("Invalid amount provided: " ++ toString amount ++
      ". Amount must be a positive number."))
  else
    let validatedAmount := jsRound amount
    if validatedAmount ≤ 0 then
      ([], .error ("Amount must be a positive number after validation. Provided: " ++
        toString amount))
    else
      let payload : FlwPayload :=
        { account_number := accountNumber
          amount := validatedAmount
          account_bank := accountBank
          narration := narration
          currency := "KES"
          beneficiary_name := beneficiaryName }
      ([ProviderCall.callFlwInitiate payload], env.transferInitiate payload)

/-! ## Phone-number cleaning (`processPayrollPayment`, M-Pesa branch) -/

/-- `.replace(/\s+/g, '')`: drop every whitespace character. -/
def stripSpaces (cs : List Char) : List Char :=
  cs.filter (fun c => !c.isWhitespace)

/-- `.replace(/\D/g, '')`: keep only the decimal digits. -/
def keepDigits (cs : List Char) : List Char :=
  cs.filter Char.isDigit

/-- `.replace(/^(\+?254)/, '254')`: a leading `+254` or `254` becomes
`254`; anything else is untouched. -/
def normalize254 : List Char → List Char
  | '+' :: '2' :: '5' :: '4' :: rest => '2' :: '5' :: '4' :: rest
  | '2' :: '5' :: '4' :: rest => '2' :: '5' :: '4' :: rest
  | cs => cs

/-- The `cleanPhone` pipeline of `processPayrollPayment`. -/
def cleanPhoneNumber (s : String) : String :=
  ⟨normalize254 (keepDigits (stripSpaces s.data))⟩

/-! ## `processPayrollPayment` (`src/lib/payroll.ts`) -/

/-- The argument record of `processPayrollPayment`.  `paymentMethod` is
a plain string: TypeScript's union type is erased at runtime and the
function handles arbitrary values in its `else` branch. -/
structure EmployeePayment where
  employeeId : String
  amount : ℚ
  bankId : Option String
  bankAccNo : Option String
  phone : Option String
  paymentMethod : String
deriving DecidableEq, Repr

structure ProcessPayrollResult where
  success : Bool
  transactionId : Option String
  error : Option String
  payoutRef : Option String
deriving DecidableEq, Repr

/-- Result of one `processPayrollPayment` run: the database after the
call, the returned value, and the trace of provider invocations. -/
structure PayrollStep where
  db : Db
  result : ProcessPayrollResult
  calls : List ProviderCall
deriving Repr

/-- The `catch` block of `processPayrollPayment`: notify the first
ADMIN user (when one exists) and fall through. -/
def payrollFailureDb (db : Db) (employeeId msg : String) : Db :=
  match findAdmin db with
  | some admin =>
    addNotification db
      { title := "Payroll Payment Failed"
        message := "Payment failed for employee " ++ employeeId ++ ": " ++ msg
        type := "ERROR"
        recipientId := admin.id }
  | none => db

/-- Outcome of a `processPayrollPayment` run that ended in the `catch`
block: all throws in the function happen before any payout or payslip
write, so the database seen by the catch block is the initial one. -/
def payrollFailure (db : Db) (ep : EmployeePayment) (msg : String)
    (calls : List ProviderCall) : PayrollStep :=
  { db := payrollFailureDb db ep.employeeId msg
    result := { success := false, transactionId := none, error := some msg, payoutRef := none }
    calls := calls }

/-- The provider phase of `processPayrollPayment` (lines 55-112):
branch on the payment method, validate, call the provider, and extract
`(transactionId, payoutRef)` from its response. -/
def paymentAttempt (env : Env) (db : Db) (ep : EmployeePayment)
    (employee : Employee) (narration : String) :
    List ProviderCall × Except String (Option String × Option String) :=
  if ep.paymentMethod == "bank" then
    if !jsTruthy ep.bankAccNo then
      ([], .error "Bank account number required for bank transfer")
    else
      -- `let bankCode = bankId; if (employee?.bank) bankCode = code || name`
      let bankCode : Option String :=
        match employeeBank db employee with
        | some b => jsOrStr b.code (some b.name)
        | none => ep.bankId
      if !jsTruthy bankCode then
        ([], .error ("Bank code not found for employee " ++ ep.employeeId))
      else if ep.amount ≤ 0 then
        ([], .error ("Invalid payment amount for employee " ++ ep.employeeId ++
          ": " ++ toString ep.amount ++ ". Amount must be a positive number."))
      else
        -- `employee.user?.name || employee.staffNo || 'Employee'`
        let beneficiary :=
          (jsOrStr
            (jsOrStr (match findUser db employee.userId with
                      | some u => u.name
                      | none => none)
              employee.staffNo)
            (some "Employee")).getD "Employee"
        let pr :=
          processBankTransfer env ep.amount (ep.bankAccNo.getD "")
            (bankCode.getD "") narration beneficiary
        (ProviderCall.callBank ep.amount (ep.bankAccNo.getD "") (bankCode.getD "")
            narration beneficiary :: pr.1,
         match pr.2 with
         | .error m => .error m
         | .ok resp =>
           let rd := flwResponseData resp
           .ok (rd.id, jsOrStr (jsOrStr rd.reference rd.id) rd.flwRef))
  else if ep.paymentMethod == "mpesa" then
    if !jsTruthy ep.phone then
      ([], .error "Phone number required for M-Pesa payment")
    else
      let cleanPhone := cleanPhoneNumber (ep.phone.getD "")
      ([ProviderCall.callMpesa ep.amount cleanPhone narration],
       match env.initiateMpesa ep.amount cleanPhone narration with
       | .error m => .error m
       | .ok resp => .ok (some resp.ConversationID, some resp.ConversationID))
  else
    ([], .error ("Invalid payment method: " ++ ep.paymentMethod))

/-- Does a payslip row match the `findFirst` query for this employee
and calendar month (lines 115-123)? -/
def payslipMonthQuery (employeeId : String) (month : JsDate) (p : Payslip) : Bool :=
  p.employeeId == employeeId &&
    dateLe (monthStart month) p.month && dateLt p.month (nextMonthStart month)

/-- Lines 114-154: update the month's payslip to paid (a Prisma update
skips a field fed `undefined`), or create one from the employee's
salary when none exists. -/
def payslipUpsert (db : Db) (ep : EmployeePayment) (month : JsDate)
    (payoutRef : Option String) : Db :=
  match db.payslips.find? (payslipMonthQuery ep.employeeId month) with
  | some payslip =>
    { db with
      payslips := db.payslips.map (fun p =>
        if p.id == payslip.id then
          { p with paid := true, payoutRef := prismaSet p.payoutRef payoutRef }
        else p) }
  | none =>
    match findEmployee db ep.employeeId with
    | some employeeDetails =>
      { db with
        payslips := db.payslips ++
          [{ id := db.nextPayslipId
             employeeId := ep.employeeId
             month := monthStart month
             grossSalary := employeeDetails.salary
             deductions := employeeDetails.salary - ep.amount
             netPay := ep.amount
             paid := true
             payoutRef := payoutRef }]
        nextPayslipId := db.nextPayslipId + 1 }
    | none => db

/-- Lines 114-187: the writes performed after a successful provider
call, and the success result. -/
def applySuccess (env : Env) (db : Db) (ep : EmployeePayment)
    (employee : Employee) (month : JsDate)
    (transactionId payoutRef : Option String) (calls : List ProviderCall) :
    PayrollStep :=
  let db1 := payslipUpsert db ep month payoutRef
  let payoutBank : Option String :=
    if ep.paymentMethod == "bank" then
      jsOrStr ep.bankId (match employeeBank db employee with
                         | some b => some b.name
                         | none => none)
    else some "M-Pesa"
  let db2 :=
    { db1 with
      payouts := db1.payouts ++
        [{ ref := (jsOrStr payoutRef (some ("PAYOUT_" ++ toString env.nowMs))).getD ""
           employeeId := ep.employeeId
           amount := ep.amount
           status := "PROCESSING"
           type := "SALARY"
           bank := payoutBank
           transactionId := transactionId
           createdAt := env.now }] }
  let db3 := addNotification db2
    { title := "Salary Payment Processed"
      message := "Your salary for " ++ monthLabel month ++ " has been processed."
      type := "PAYMENT"
      recipientId := employee.userId }
  { db := db3
    result := { success := true, transactionId := transactionId
                error := none, payoutRef := payoutRef }
    calls := calls }

/-- `processPayrollPayment`: look the employee up, run the provider
phase, then persist payslip, payout and notification rows; any thrown
error is caught, reported to an admin and turned into a failure
result. -/
def processPayrollPayment (env : Env) (db : Db) (ep : EmployeePayment)
    (month : JsDate) (description : String) : PayrollStep :=
  match findEmployee db ep.employeeId with
  | none =>
    payrollFailure db ep ("Employee with ID " ++ ep.employeeId ++ " not found") []
  | some employee =>
    let att := paymentAttempt env db ep employee (description ++ " for " ++ monthLabel month)
    match att.2 with
    | .error m => payrollFailure db ep m att.1
    | .ok (transactionId, payoutRef) =>
      applySuccess env db ep employee month transactionId payoutRef att.1

/-- One iteration of the `processBulkPayroll` loop: process the
payment against the current database and push its result. -/
def bulkStep (env : Env) (month : JsDate) (description : String)
    (acc : Db × List ProcessPayrollResult) (ep : EmployeePayment) :
    Db × List ProcessPayrollResult :=
  let step := processPayrollPayment env acc.1 ep month description
  (step.db, acc.2 ++ [step.result])

/-- `processBulkPayroll` (lines 231-253): a sequential loop threading
the database; the per-item amount coercion (`parseFloat` / `Number`) is
the identity on an already-numeric amount. -/
def processBulkPayroll (env : Env) (db : Db) (payments : List EmployeePayment)
    (month : JsDate) (description : String) : Db × List ProcessPayrollResult :=
  payments.foldl (bulkStep env month description) (db, [])

/-! ## `verifyPayrollPayment` and `reconcilePayroll` -/

structure VerifyResult where
  success : Bool
  status : Option String
  error : Option String
deriving DecidableEq, Repr

/-- The status `verifyPayrollPayment` derives for a payout (lines
270-295).  The M-Pesa verification runs outside any inner `try`, so its
errors propagate to the outer catch (`Except.error`); the Flutterwave
verification has its own `try` that maps errors to `FAILED`, and an
unclear Flutterwave status yields `PENDING`. -/
def verifiedStatus (env : Env) (payout : Payout) : Except String String :=
  if payout.bank == some "M-Pesa" then
    match env.verifyMpesa payout.transactionId with
    | .error m => .error m
    | .ok v => if v.Result.ResultCode == 0 then .ok "SUCCESS" else .ok "FAILED"
  else
    match env.verifyFlw payout.transactionId with
    | .error _ => .ok "FAILED"
    | .ok resp =>
      let vd := flwResponseData resp
      if vd.status == some "success" then .ok "SUCCESS"
      else if vd.status == some "failed" then .ok "FAILED"
      else .ok "PENDING"

/-- `verifyPayrollPayment` (lines 260-330): look the payout up by
reference, derive its verified status, write it back, and mark the
linked payslip paid on success.  (The returned object also spreads the
raw provider verification; the claims do not read it, so it is not
reproduced here.) -/
def verifyPayrollPayment (env : Env) (db : Db) (payoutRef : String) :
    Db × VerifyResult :=
  match db.payouts.find? (fun p => p.ref == payoutRef) with
  | none =>
    (db, { success := false, status := none
           error := some ("Payout with reference " ++ payoutRef ++ " not found") })
  | some payout =>
    match verifiedStatus env payout with
    | .error m => (db, { success := false, status := none, error := some m })
    | .ok status =>
      let db1 :=
        { db with
          payouts := db.payouts.map (fun p =>
            if p.ref == payoutRef then { p with status := status } else p) }
      let db2 :=
        if status == "SUCCESS" then
          match db1.payslips.find? (fun p => p.payoutRef == some payoutRef) with
          | some payslip =>
            { db1 with
              payslips := db1.payslips.map (fun p =>
                if p.id == payslip.id then { p with paid := true } else p) }
          | none => db1
        else db1
      (db2, { success := true, status := some status, error := none })

/-- The `findMany` filter of `reconcilePayroll` (lines 339-348):
salary payouts created inside the month that are still processing. -/
def reconcileQuery (month : JsDate) (p : Payout) : Bool :=
  p.type == "SALARY" &&
    dateLe (monthStart month) p.createdAt &&
    dateLt p.createdAt (nextMonthStart month) &&
    p.status == "PROCESSING"

/-- `reconcilePayroll` (lines 336-358): select the month's pending
salary payouts, then verify each one in order against the evolving
database.  `verifyPayrollPayment` never throws (it catches
internally), so the outer catch is dead and the function returns the
final database. -/
def reconcilePayroll (env : Env) (db : Db) (month : JsDate) : Db :=
  (db.payouts.filter (reconcileQuery month)).foldl
    (fun d p => (verifyPayrollPayment env d p.ref).fst) db

/-! ## POST `/api/finance/banks` (`src/app/api/finance/banks/route.ts`) -/

/-- The session shape the route reads (`session.user.id`,
`session.user.role`), each layer possibly absent. -/
structure SessionUser where
  id : Option String
  role : Option String
deriving DecidableEq, Repr

structure Session where
  user : Option SessionUser
deriving DecidableEq, Repr

/-- The parsed JSON body of the request (`name`, `code`). -/
structure BankBody where
  name : Option String
  code : Option String
deriving DecidableEq, Repr

/-- An HTTP response as far as the claims observe it. -/
structure RouteResponse where
  status : Nat
  error : Option String
deriving DecidableEq, Repr

/-- The route's authorization check (line 23): a session user with a
truthy id whose role is ADMIN or FINANCE. -/
def bankPostAuthorized (session : Option Session) : Bool :=
  match session with
  | none => false
  | some s =>
    match s.user with
    | none => false
    | some u =>
      jsTruthy u.id && (u.role == some "ADMIN" || u.role == some "FINANCE")

/-- `prisma.bank.findUnique(\x7b where: \x7b code \x7d \x7d)`.  The
route queries `code` with `findUnique`, which Prisma only permits on a
field carrying a unique constraint; the same constraint makes
`prisma.bank.create` throw on a duplicate code. -/
def bankWithCode (db : Db) (code : String) : Bool :=
  db.banks.any (fun b => b.code == some code)

/-- The id of the authenticated session user (defined on the authorized
path). -/
def sessionUserId (session : Option Session) : String :=
  match session with
  | some s =>
    match s.user with
    | some u => u.id.getD ""
    | none => ""
  | none => ""

/-- The POST handler of `/api/finance/banks`: 401 for unauthorized
callers, 400 for a falsy name/code or a duplicate of the *submitted*
code, then creation with *trimmed* name and code plus an activity log
row.  When the trimmed code collides with an existing bank the create
violates the unique constraint on `code`, the outer catch runs, and the
route answers 500 without creating anything. -/
def bankPost (db : Db) (session : Option Session) (body : BankBody) :
    Db × RouteResponse :=
  if !bankPostAuthorized session then
    (db, { status := 401, error := some "Unauthorized" })
  else if !jsTruthy body.name || !jsTruthy body.code then
    (db, { status := 400, error := some "Bank name and code are required" })
  else
    let name := body.name.getD ""
    let code := body.code.getD ""
    if bankWithCode db code then
      (db, { status := 400, error := some "A bank with this code already exists" })
    else if bankWithCode db (jsTrim code) then
      (db, { status := 500, error := some "Failed to add bank" })
    else
      let newBank : Bank :=
        { id := "bank_" ++ toString db.nextBankId
          name := jsTrim name
          code := some (jsTrim code) }
      let db1 := { db with banks := db.banks ++ [newBank]
                           nextBankId := db.nextBankId + 1 }
      let db2 :=
        match db1.employees.find? (fun e => e.userId == sessionUserId session) with
        | some sessionEmployee =>
          { db1 with
            activities := db1.activities ++
              [{ employeeId := sessionEmployee.id
                 actionType := "CREATE"
                 description := "Added new bank: " ++ name
                 module := "BANKS" }] }
        | none => db1
      (db2, { status := 201, error := none })

/-- Modelled from the spec claim for the bank-creation endpoint: the
response status the amended claim predicts — 401 when unauthorized,
400 for a missing name/code or an exact duplicate of the submitted
code, 500 when only the trimmed code collides, 201 otherwise. -/
def bankPostSpecStatus (db : Db) (session : Option Session) (body : BankBody) : Nat :=
  if !bankPostAuthorized session then 401
  else if !jsTruthy body.name || !jsTruthy body.code then 400
  else if bankWithCode db (body.code.getD "") then 400
  else if bankWithCode db (jsTrim (body.code.getD "")) then 500
  else 201

/-- The bank table the amended claim predicts after the request. -/
def bankPostSpecBanks (db : Db) (session : Option Session) (body : BankBody) : List Bank :=
  if bankPostSpecStatus db session body = 201 then
    db.banks ++
      [{ id := "bank_" ++ toString db.nextBankId
         name := jsTrim (body.name.getD "")
         code := some (jsTrim (body.code.getD "")) }]
  else db.banks

/-! ## Status vocabulary and call-trace predicates -/

/-- Is `s` one of the payout statuses the payroll module can write? -/
def payoutStatusOkB (s : String) : Bool :=
  s == "PROCESSING" || s == "SUCCESS" || s == "FAILED" || s == "PENDING"

/-- Calls that belong to the bank-transfer path. -/
def isBankCall : ProviderCall → Bool
  | .callBank .. => true
  | .callFlwInitiate _ => true
  | .callMpesa .. => false

/-- Calls that belong to the M-Pesa path. -/
def isMpesaCall : ProviderCall → Bool
  | .callMpesa .. => true
  | _ => false

/-- Top-level provider invocations (one per provider handoff). -/
def isProviderEntry : ProviderCall → Bool
  | .callBank .. => true
  | .callMpesa .. => true
  | .callFlwInitiate _ => false

/-- The provider a given payment method is allowed to reach. -/
def callAllowedFor (method : String) (c : ProviderCall) : Bool :=
  if method == "bank" then isBankCall c
  else if method == "mpesa" then isMpesaCall c
  else false

/-! ## Concrete fixtures used by witnesses and counterexamples -/

def flwNoData : FlwData := { id := none, reference := none, flwRef := none, status := none }

/-- A total environment: transfers and M-Pesa initiations succeed, the
M-Pesa verification reports success, and the Flutterwave verification
returns a response carrying no `status` field (an "unclear" status). -/
def envPending : Env :=
  { flutterwaveConfigured := true
    transferInitiate := fun _ =>
      .ok { data := some { id := some "FT1", reference := some "FR1", flwRef := none, status := none }
            bodyData := none, self := flwNoData }
    initiateMpesa := fun _ _ _ => .ok { ConversationID := "MC1" }
    verifyFlw := fun _ => .ok { data := some flwNoData, bodyData := none, self := flwNoData }
    verifyMpesa := fun _ => .ok { Result := { ResultCode := 0 } }
    nowMs := 1000
    now := ⟨0, 3⟩ }

def payout0 : Payout :=
  { ref := "r1", employeeId := "e1", amount := 1, status := "PROCESSING"
    type := "SALARY", bank := some "EQ", transactionId := some "t1", createdAt := ⟨0, 0⟩ }

def user1 : User := { id := "u1", name := some "Alice", role := "ADMIN" }

def emp1 : Employee := { id := "e1", userId := "u1", staffNo := some "S001", salary := 300, bankId := none }

def db0 : Db :=
  { users := [user1], employees := [emp1], banks := [], payslips := []
    payouts := [payout0], notifications := [], activities := []
    nextPayslipId := 0, nextBankId := 0 }

/-- A valid M-Pesa payment for the employee of `db0`. -/
def epM : EmployeePayment :=
  { employeeId := "e1", amount := 120, bankId := none, bankAccNo := none
    phone := some "0712 345678", paymentMethod := "mpesa" }

/-- A payment naming an employee that does not exist. -/
def epGhost : EmployeePayment :=
  { employeeId := "ghost", amount := 100, bankId := none, bankAccNo := none
    phone := some "0712", paymentMethod := "mpesa" }

def bankEq : Bank := { id := "b1", name := "Equity", code := some "EQ" }

def dbBank : Db :=
  { users := [], employees := [], banks := [bankEq], payslips := []
    payouts := [], notifications := [], activities := []
    nextPayslipId := 0, nextBankId := 7 }

def sessAdmin : Option Session := some { user := some { id := some "u1", role := some "ADMIN" } }

/-- A creation request whose submitted code has a leading space: no bank
carries the submitted code, but the trimmed code collides. -/
def bodyEq : BankBody := { name := some "Equity Bank", code := some " EQ" }

/-! ## Lemmas about `processBankTransfer` -/

/-- Every SDK call `processBankTransfer` makes is a transfer
initiation. -/
theorem processBankTransfer_calls_shape (env : Env) (amount : ℚ)
    (acc bank narr name : String) :
    ∀ c ∈ (processBankTransfer env amount acc bank narr name).1,
      ∃ pl, c = ProviderCall.callFlwInitiate pl := by
  intro c hc
  unfold processBankTransfer at hc
  split at hc
  · simp at hc
  · split at hc
    · simp at hc
    · dsimp only at hc
      split at hc
      · simp at hc
      · simp at hc
        exact ⟨_, hc⟩

/-- C9: every payload handed to the Flutterwave transfer SDK carries
`Math.round` of the input amount, and a non-positive or
rounds-to-non-positive amount makes `processBankTransfer` throw before
any SDK call. -/
theorem claim9_round_amount (env : Env) (amount : ℚ) (acc bank narr name : String) :
    (∀ pl, ProviderCall.callFlwInitiate pl ∈ (processBankTransfer env amount acc bank narr name).1 →
        pl.amount = jsRound amount) ∧
    ((amount ≤ 0 ∨ jsRound amount ≤ 0) →
      (processBankTransfer env amount acc bank narr name).1 = [] ∧
      ∃ m, (processBankTransfer env amount acc bank narr name).2 = .error m) := by
  constructor
  · intro pl hpl
    unfold processBankTransfer at hpl
    split at hpl
    · simp at hpl
    · split at hpl
      · simp at hpl
      · dsimp only at hpl
        split at hpl
        · simp at hpl
        · simp at hpl
          rw [hpl]
  · intro h
    unfold processBankTransfer
    split
    · exact ⟨rfl, _, rfl⟩
    · split
      · exact ⟨rfl, _, rfl⟩
      · dsimp only
        split
        · exact ⟨rfl, _, rfl⟩
        · exfalso
          rename_i h1 h2
          rcases h with h | h
          · exact h1 h
          · exact h2 h

/-- Witness for C9 at the concrete amount `0`. -/
theorem claim9_witness :
    ((0 : ℚ) ≤ 0 ∨ jsRound 0 ≤ 0) ∧
    ((processBankTransfer envPending 0 "acc" "EQ" "pay" "Alice").1 = [] ∧
      ∃ m, (processBankTransfer envPending 0 "acc" "EQ" "pay" "Alice").2 = .error m) :=
  ⟨Or.inl le_rfl,
   (claim9_round_amount envPending 0 "acc" "EQ" "pay" "Alice").2 (Or.inl le_rfl)⟩

/-! ## Lemmas about phone cleaning -/

/-- A decimal digit is not whitespace. -/
theorem digit_not_whitespace (c : Char) (h : c.isDigit = true) :
    c.isWhitespace = false := by
  cases hw : c.isWhitespace
  · rfl
  · exfalso
    simp only [Char.isWhitespace, Bool.or_eq_true, decide_eq_true_eq] at hw
    rcases hw with ((h1 | h1) | h1) | h1 <;> subst h1 <;> exact absurd h (by decide)

/-- Dropping whitespace first does not change the digit filter. -/
theorem keepDigits_stripSpaces (cs : List Char) :
    keepDigits (stripSpaces cs) = keepDigits cs := by
  unfold keepDigits stripSpaces
  rw [List.filter_filter]
  apply List.filter_congr
  intro c _
  cases hd : c.isDigit
  · simp
  · simp [digit_not_whitespace c hd]

theorem keepDigits_all_digits (cs : List Char) :
    (keepDigits cs).all Char.isDigit = true := by
  simp only [List.all_eq_true]
  intro c hc
  exact (List.mem_filter.mp hc).2

/-- The `^(\+?254)` normalisation is the identity on a string that is
already all digits. -/
theorem normalize254_of_digits (cs : List Char) (h : cs.all Char.isDigit = true) :
    normalize254 cs = cs := by
  unfold normalize254
  split
  · rename_i rest
    rw [List.all_cons] at h
    simp only [Bool.and_eq_true] at h
    exact absurd h.1 (by decide)
  · rfl
  · rfl

/-- The composite cleaning pipeline reduces to filtering the digits. -/
theorem cleanPhoneNumber_eq_digits (s : String) :
    (cleanPhoneNumber s).data = s.data.filter Char.isDigit := by
  unfold cleanPhoneNumber
  rw [keepDigits_stripSpaces, normalize254_of_digits _ (keepDigits_all_digits _)]
  rfl

theorem cleanPhoneNumber_all_digits (s : String) :
    (cleanPhoneNumber s).data.all Char.isDigit = true := by
  rw [cleanPhoneNumber_eq_digits]
  simp only [List.all_eq_true]
  intro c hc
  exact (List.mem_filter.mp hc).2

/-! ## Lemmas about the provider phase -/

/-- An M-Pesa call recorded by the provider phase pins down the method,
the amount, the remarks and the cleaned phone number. -/
theorem paymentAttempt_callMpesa_mem (env : Env) (db : Db) (ep : EmployeePayment)
    (e : Employee) (narr : String) (a : ℚ) (p r : String)
    (h : ProviderCall.callMpesa a p r ∈ (paymentAttempt env db ep e narr).1) :
    ep.paymentMethod = "mpesa" ∧ a = ep.amount ∧ r = narr ∧
      ∃ ph, ep.phone = some ph ∧ p = cleanPhoneNumber ph := by
  unfold paymentAttempt at h
  split at h
  · -- bank branch: the trace holds only bank-side calls
    split at h
    · simp at h
    · dsimp only at h
      split at h
      · simp at h
      · split at h
        · simp at h
        · rcases List.mem_cons.mp h with h1 | h1
          · simp at h1
          · obtain ⟨pl, hpl⟩ := processBankTransfer_calls_shape env _ _ _ _ _ _ h1
            simp at hpl
  · split at h
    · -- mpesa branch
      rename_i hb hm
      split at h
      · simp at h
      · rename_i hph
        dsimp only at h
        simp only [List.mem_singleton, ProviderCall.callMpesa.injEq] at h
        obtain ⟨ha, hp, hr⟩ := h
        refine ⟨by simpa using hm, ha, hr, ?_⟩
        simp only [Bool.not_eq_true'] at hph
        unfold jsTruthy at hph
        cases hphone : ep.phone with
        | none => rw [hphone] at hph; simp at hph
        | some s => exact ⟨s, rfl, by rw [hp, hphone]; rfl⟩
    · simp at h

/-- C8: every phone number handed to `initiateMpesaPayment` is the
input phone with whitespace and non-digits removed and the `+254`/`254`
prefix normalised; in particular it consists only of digits. -/
theorem claim8_phone_cleaning (env : Env) (db : Db) (ep : EmployeePayment)
    (month : JsDate) (description : String) (a : ℚ) (p r : String)
    (h : ProviderCall.callMpesa a p r ∈ (processPayrollPayment env db ep month description).calls) :
    ∃ ph, ep.phone = some ph ∧ p = cleanPhoneNumber ph ∧
      p.data = ph.data.filter Char.isDigit ∧ p.data.all Char.isDigit = true := by
  unfold processPayrollPayment at h
  split at h
  · simp [payrollFailure] at h
  · rename_i e he
    revert h
    dsimp only
    split
    · intro h
      simp only [payrollFailure] at h
      obtain ⟨-, -, -, ph, h1, h2⟩ := paymentAttempt_callMpesa_mem env db ep e _ a p r h
      exact ⟨ph, h1, h2, by rw [h2]; exact cleanPhoneNumber_eq_digits ph,
        by rw [h2]; exact cleanPhoneNumber_all_digits ph⟩
    · intro h
      simp only [applySuccess] at h
      obtain ⟨-, -, -, ph, h1, h2⟩ := paymentAttempt_callMpesa_mem env db ep e _ a p r h
      exact ⟨ph, h1, h2, by rw [h2]; exact cleanPhoneNumber_eq_digits ph,
        by rw [h2]; exact cleanPhoneNumber_all_digits ph⟩

/-- Witness for C8: the M-Pesa payment of `epM` sends the digits of
`"0712 345678"`. -/
theorem claim8_witness :
    ProviderCall.callMpesa 120 "0712345678" ("Salary for 1")
        ∈ (processPayrollPayment envPending db0 epM ⟨1, 0⟩ "Salary").calls ∧
    ∃ ph, epM.phone = some ph ∧ "0712345678" = cleanPhoneNumber ph ∧
      ("0712345678" : String).data = ph.data.filter Char.isDigit ∧
      ("0712345678" : String).data.all Char.isDigit = true :=
  ⟨by decide, claim8_phone_cleaning envPending db0 epM ⟨1, 0⟩ "Salary" 120 "0712345678"
    "Salary for 1" (by decide)⟩

/-! ## Failure-path lemmas for `processPayrollPayment` -/

/-- Any run that reports failure is exactly a run of the catch block on
the unmodified initial database. -/
theorem processPayrollPayment_fail_shape (env : Env) (db : Db) (ep : EmployeePayment)
    (month : JsDate) (description : String)
    (h : (processPayrollPayment env db ep month description).result.success = false) :
    ∃ m, processPayrollPayment env db ep month description =
      payrollFailure db ep m (processPayrollPayment env db ep month description).calls := by
  unfold processPayrollPayment at h ⊢
  split at h
  · exact ⟨_, rfl⟩
  · rename_i e he
    revert h
    dsimp only
    split
    · intro _
      exact ⟨_, rfl⟩
    · intro h
      simp [applySuccess] at h

/-- The catch block only ever appends a notification row. -/
theorem payrollFailureDb_fields (db : Db) (employeeId msg : String) :
    (payrollFailureDb db employeeId msg).payouts = db.payouts ∧
    (payrollFailureDb db employeeId msg).payslips = db.payslips ∧
    (payrollFailureDb db employeeId msg).employees = db.employees ∧
    (payrollFailureDb db employeeId msg).users = db.users ∧
    (payrollFailureDb db employeeId msg).banks = db.banks ∧
    (payrollFailureDb db employeeId msg).nextPayslipId = db.nextPayslipId := by
  unfold payrollFailureDb addNotification
  split <;> simp

/-- C3: a run on which any step throws returns
`(success: false, error: message)` and notifies the first admin user
when one exists. -/
theorem claim3_error_handling (env : Env) (db : Db) (ep : EmployeePayment)
    (month : JsDate) (description : String)
    (h : (processPayrollPayment env db ep month description).result.success = false) :
    ∃ m, (processPayrollPayment env db ep month description).result =
        { success := false, transactionId := none, error := some m, payoutRef := none } ∧
      ((∃ a, findAdmin db = some a ∧
          (processPayrollPayment env db ep month description).db.notifications =
            db.notifications ++
              [{ title := "Payroll Payment Failed"
                 message := "Payment failed for employee " ++ ep.employeeId ++ ": " ++ m
                 type := "ERROR"
                 recipientId := a.id }]) ∨
        (findAdmin db = none ∧
          (processPayrollPayment env db ep month description).db.notifications =
            db.notifications)) := by
  obtain ⟨m, hm⟩ := processPayrollPayment_fail_shape env db ep month description h
  refine ⟨m, by rw [hm]; rfl, ?_⟩
  rw [hm]
  unfold payrollFailure payrollFailureDb addNotification
  cases ha : findAdmin db with
  | none => exact Or.inr ⟨rfl, rfl⟩
  | some a => exact Or.inl ⟨a, rfl, rfl⟩

/-- Witness for C3: paying a non-existent employee fails and notifies
the admin of `db0`. -/
theorem claim3_witness :
    (processPayrollPayment envPending db0 epGhost ⟨1, 0⟩ "Salary").result.success = false ∧
    ∃ m, (processPayrollPayment envPending db0 epGhost ⟨1, 0⟩ "Salary").result =
        { success := false, transactionId := none, error := some m, payoutRef := none } ∧
      ((∃ a, findAdmin db0 = some a ∧
          (processPayrollPayment envPending db0 epGhost ⟨1, 0⟩ "Salary").db.notifications =
            db0.notifications ++
              [{ title := "Payroll Payment Failed"
                 message := "Payment failed for employee " ++ epGhost.employeeId ++ ": " ++ m
                 type := "ERROR"
                 recipientId := a.id }]) ∨
        (findAdmin db0 = none ∧
          (processPayrollPayment envPending db0 epGhost ⟨1, 0⟩ "Salary").db.notifications =
            db0.notifications)) :=
  ⟨by decide, claim3_error_handling envPending db0 epGhost ⟨1, 0⟩ "Salary" (by decide)⟩

/-- C10: a failing run writes no payout and no payslip row; at most a
notification row is added. -/
theorem claim10_no_writes_on_failure (env : Env) (db : Db) (ep : EmployeePayment)
    (month : JsDate) (description : String)
    (h : (processPayrollPayment env db ep month description).result.success = false) :
    (processPayrollPayment env db ep month description).db.payouts = db.payouts ∧
    (processPayrollPayment env db ep month description).db.payslips = db.payslips ∧
    (processPayrollPayment env db ep month description).db.employees = db.employees ∧
    (processPayrollPayment env db ep month description).db.users = db.users ∧
    (processPayrollPayment env db ep month description).db.banks = db.banks ∧
    (processPayrollPayment env db ep month description).db.nextPayslipId = db.nextPayslipId ∧
    ((processPayrollPayment env db ep month description).db.notifications = db.notifications ∨
      ∃ n, (processPayrollPayment env db ep month description).db.notifications =
        db.notifications ++ [n]) := by
  obtain ⟨m, hm⟩ := processPayrollPayment_fail_shape env db ep month description h
  rw [hm]
  obtain ⟨h1, h2, h3, h4, h5, h6⟩ := payrollFailureDb_fields db ep.employeeId m
  refine ⟨h1, h2, h3, h4, h5, h6, ?_⟩
  unfold payrollFailure payrollFailureDb addNotification
  cases findAdmin db with
  | none => exact Or.inl rfl
  | some a => exact Or.inr ⟨_, rfl⟩

/-- Witness for C10 at the failing input of `epGhost`. -/
theorem claim10_witness :
    (processPayrollPayment envPending db0 epGhost ⟨1, 0⟩ "Salary").result.success = false ∧
    (processPayrollPayment envPending db0 epGhost ⟨1, 0⟩ "Salary").db.payouts = db0.payouts ∧
    (processPayrollPayment envPending db0 epGhost ⟨1, 0⟩ "Salary").db.payslips = db0.payslips :=
  ⟨by decide,
   (claim10_no_writes_on_failure envPending db0 epGhost ⟨1, 0⟩ "Salary" (by decide)).1,
   (claim10_no_writes_on_failure envPending db0 epGhost ⟨1, 0⟩ "Salary" (by decide)).2.1⟩

/-! ## Success-path lemmas for `processPayrollPayment` -/

/-- A successful run is exactly the success-write phase for the
employee found in the database. -/
theorem processPayrollPayment_success_shape (env : Env) (db : Db) (ep : EmployeePayment)
    (month : JsDate) (description : String)
    (h : (processPayrollPayment env db ep month description).result.success = true) :
    ∃ e tid pref, findEmployee db ep.employeeId = some e ∧
      processPayrollPayment env db ep month description =
        applySuccess env db ep e month tid pref
          (paymentAttempt env db ep e (description ++ " for " ++ monthLabel month)).1 := by
  revert h
  unfold processPayrollPayment
  cases hfe : findEmployee db ep.employeeId with
  | none =>
    intro h
    simp [payrollFailure] at h
  | some e =>
    dsimp only
    split
    · intro h
      simp [payrollFailure] at h
    · rename_i tid pref heq
      intro _
      exact ⟨e, tid, pref, rfl, rfl⟩

/-- The payslip upsert never touches the payout table. -/
theorem payslipUpsert_payouts (db : Db) (ep : EmployeePayment) (month : JsDate)
    (pref : Option String) :
    (payslipUpsert db ep month pref).payouts = db.payouts := by
  unfold payslipUpsert
  split
  · rfl
  · split <;> rfl

/-- C6: a successful run appends one payout row with status
`PROCESSING`, the employee's id, the paid amount and the provider's
transaction id, and either marks the employee's payslip of the month
paid (attaching the payout reference when one was returned) or creates
a paid payslip with net pay the paid amount and deductions the gross
salary minus the paid amount. -/
theorem claim6_success_persistence (env : Env) (db : Db) (ep : EmployeePayment)
    (month : JsDate) (description : String)
    (h : (processPayrollPayment env db ep month description).result.success = true) :
    ∃ e, findEmployee db ep.employeeId = some e ∧
      (∃ newPayout : Payout,
        (processPayrollPayment env db ep month description).db.payouts =
          db.payouts ++ [newPayout] ∧
        newPayout.status = "PROCESSING" ∧
        newPayout.type = "SALARY" ∧
        newPayout.employeeId = ep.employeeId ∧
        newPayout.amount = ep.amount ∧
        newPayout.transactionId =
          (processPayrollPayment env db ep month description).result.transactionId ∧
        newPayout.createdAt = env.now) ∧
      (match db.payslips.find? (payslipMonthQuery ep.employeeId month) with
       | some payslip =>
         (processPayrollPayment env db ep month description).db.payslips =
           db.payslips.map (fun q =>
             if q.id == payslip.id then
               { q with
                 paid := true
                 payoutRef := prismaSet q.payoutRef
                   (processPayrollPayment env db ep month description).result.payoutRef }
             else q)
       | none =>
         (processPayrollPayment env db ep month description).db.payslips =
           db.payslips ++
             [{ id := db.nextPayslipId
                employeeId := ep.employeeId
                month := monthStart month
                grossSalary := e.salary
                deductions := e.salary - ep.amount
                netPay := ep.amount
                paid := true
                payoutRef :=
                  (processPayrollPayment env db ep month description).result.payoutRef }]) := by
  obtain ⟨e, tid, pref, he, hs⟩ :=
    processPayrollPayment_success_shape env db ep month description h
  rw [hs]
  refine ⟨e, he, ?_, ?_⟩
  · refine ⟨{ ref := (jsOrStr pref (some ("PAYOUT_" ++ toString env.nowMs))).getD ""
              employeeId := ep.employeeId
              amount := ep.amount
              status := "PROCESSING"
              type := "SALARY"
              bank := if ep.paymentMethod == "bank" then
                  jsOrStr ep.bankId (match employeeBank db e with
                                     | some b => some b.name
                                     | none => none)
                else some "M-Pesa"
              transactionId := tid
              createdAt := env.now }, ?_, rfl, rfl, rfl, rfl, rfl, rfl⟩
    show (applySuccess env db ep e month tid pref _).db.payouts = _
    simp [applySuccess, addNotification, payslipUpsert_payouts]
  · show (match db.payslips.find? (payslipMonthQuery ep.employeeId month) with
      | some payslip =>
        (applySuccess env db ep e month tid pref _).db.payslips =
          db.payslips.map (fun q =>
            if q.id == payslip.id then
              { q with paid := true, payoutRef := prismaSet q.payoutRef pref }
            else q)
      | none =>
        (applySuccess env db ep e month tid pref _).db.payslips =
          db.payslips ++
            [{ id := db.nextPayslipId
               employeeId := ep.employeeId
               month := monthStart month
               grossSalary := e.salary
               deductions := e.salary - ep.amount
               netPay := ep.amount
               paid := true
               payoutRef := pref }])
    simp only [applySuccess, addNotification]
    unfold payslipUpsert
    cases hf : db.payslips.find? (payslipMonthQuery ep.employeeId month) with
    | some payslip => rfl
    | none =>
      rw [he]

/-- Witness for C6 at the successful M-Pesa payment of `epM`. -/
theorem claim6_witness :
    (processPayrollPayment envPending db0 epM ⟨1, 0⟩ "Salary").result.success = true ∧
    (∃ e, findEmployee db0 epM.employeeId = some e ∧
      (∃ newPayout : Payout,
        (processPayrollPayment envPending db0 epM ⟨1, 0⟩ "Salary").db.payouts =
          db0.payouts ++ [newPayout] ∧
        newPayout.status = "PROCESSING" ∧
        newPayout.type = "SALARY" ∧
        newPayout.employeeId = epM.employeeId ∧
        newPayout.amount = epM.amount ∧
        newPayout.transactionId =
          (processPayrollPayment envPending db0 epM ⟨1, 0⟩ "Salary").result.transactionId ∧
        newPayout.createdAt = envPending.now) ∧
      (match db0.payslips.find? (payslipMonthQuery epM.employeeId ⟨1, 0⟩) with
       | some payslip =>
         (processPayrollPayment envPending db0 epM ⟨1, 0⟩ "Salary").db.payslips =
           db0.payslips.map (fun q =>
             if q.id == payslip.id then
               { q with
                 paid := true
                 payoutRef := prismaSet q.payoutRef
                   (processPayrollPayment envPending db0 epM ⟨1, 0⟩ "Salary").result.payoutRef }
             else q)
       | none =>
         (processPayrollPayment envPending db0 epM ⟨1, 0⟩ "Salary").db.payslips =
           db0.payslips ++
             [{ id := db0.nextPayslipId
                employeeId := epM.employeeId
                month := monthStart ⟨1, 0⟩
                grossSalary := e.salary
                deductions := e.salary - epM.amount
                netPay := epM.amount
                paid := true
                payoutRef :=
                  (processPayrollPayment envPending db0 epM ⟨1, 0⟩ "Salary").result.payoutRef }])) :=
  ⟨by decide, claim6_success_persistence envPending db0 epM ⟨1, 0⟩ "Salary" (by decide)⟩

/-! ## Provider selection (C2) -/

/-- Counterexample to C2 as stated: a payment whose method is `mpesa`
(so, per the claim, "it calls the mobile-money provider") invokes no
provider at all when the employee lookup fails first. -/
theorem claim2_counterexample :
    epGhost.paymentMethod = "mpesa" ∧
    (processPayrollPayment envPending db0 epGhost ⟨1, 0⟩ "Salary").calls = [] ∧
    (processPayrollPayment envPending db0 epGhost ⟨1, 0⟩ "Salary").result.success = false := by
  decide

/-- The SDK trace of `processBankTransfer` contains no top-level
provider handoff. -/
theorem processBankTransfer_countP_entry (env : Env) (amount : ℚ)
    (acc bank narr name : String) :
    (processBankTransfer env amount acc bank narr name).1.countP isProviderEntry = 0 := by
  refine List.countP_eq_zero.mpr ?_
  intro c hc
  obtain ⟨pl, hpl⟩ := processBankTransfer_calls_shape env amount acc bank narr name c hc
  rw [hpl]
  simp [isProviderEntry]

/-- Every SDK call of `processBankTransfer` is on the bank path. -/
theorem processBankTransfer_all_allowed (env : Env) (amount : ℚ)
    (acc bank narr name : String) :
    (processBankTransfer env amount acc bank narr name).1.all (callAllowedFor "bank") = true := by
  rw [List.all_eq_true]
  intro c hc
  obtain ⟨pl, hpl⟩ := processBankTransfer_calls_shape env amount acc bank narr name c hc
  rw [hpl]
  simp [callAllowedFor, isBankCall]

/-- Trace discipline of the provider phase: at most one provider
handoff, every call on the method's own path, and an error without any
call when the method is neither `bank` nor `mpesa`. -/
theorem paymentAttempt_calls_spec (env : Env) (db : Db) (ep : EmployeePayment)
    (e : Employee) (narr : String) :
    ((paymentAttempt env db ep e narr).1.countP isProviderEntry ≤ 1) ∧
    ((paymentAttempt env db ep e narr).1.all (callAllowedFor ep.paymentMethod) = true) ∧
    (ep.paymentMethod ≠ "bank" → ep.paymentMethod ≠ "mpesa" →
      (paymentAttempt env db ep e narr).1 = [] ∧
        ∃ m, (paymentAttempt env db ep e narr).2 = .error m) := by
  unfold paymentAttempt
  split
  · rename_i hb
    have hbeq : ep.paymentMethod = "bank" := by simpa using hb
    split
    · exact ⟨by simp, by simp, fun h1 _ => absurd hbeq h1⟩
    · dsimp only
      split
      · exact ⟨by simp, by simp, fun h1 _ => absurd hbeq h1⟩
      · split
        · exact ⟨by simp, by simp, fun h1 _ => absurd hbeq h1⟩
        · refine ⟨?_, ?_, fun h1 _ => absurd hbeq h1⟩
          · rw [List.countP_cons, processBankTransfer_countP_entry]
            simp [isProviderEntry]
          · rw [List.all_cons, hbeq, processBankTransfer_all_allowed]
            simp [callAllowedFor, isBankCall]
  · rename_i hb
    split
    · rename_i hm
      have hmeq : ep.paymentMethod = "mpesa" := by simpa using hm
      split
      · exact ⟨by simp, by simp, fun _ h2 => absurd hmeq h2⟩
      · dsimp only
        refine ⟨by simp [isProviderEntry], ?_, fun _ h2 => absurd hmeq h2⟩
        simp [callAllowedFor, hb, hm, isMpesaCall]
    · exact ⟨by simp, by simp, fun _ _ => ⟨rfl, _, rfl⟩⟩

/-- C2 amended: `processPayrollPayment` makes at most one provider
handoff, always to the provider selected by the payment method, and a
success implies the method was `bank` or `mpesa`; for any other method
(and on early validation failures) no provider is invoked. -/
theorem claim2_amended (env : Env) (db : Db) (ep : EmployeePayment)
    (month : JsDate) (description : String) :
    ((processPayrollPayment env db ep month description).calls.countP isProviderEntry ≤ 1) ∧
    ((processPayrollPayment env db ep month description).calls.all
        (callAllowedFor ep.paymentMethod) = true) ∧
    ((processPayrollPayment env db ep month description).result.success = true →
      ep.paymentMethod = "bank" ∨ ep.paymentMethod = "mpesa") := by
  unfold processPayrollPayment
  cases hfe : findEmployee db ep.employeeId with
  | none =>
    refine ⟨by simp [payrollFailure], by simp [payrollFailure], ?_⟩
    intro h
    simp [payrollFailure] at h
  | some e =>
    obtain ⟨h1, h2, h3⟩ :=
      paymentAttempt_calls_spec env db ep e (description ++ " for " ++ monthLabel month)
    dsimp only
    split
    · exact ⟨h1, h2, fun h => by simp [payrollFailure] at h⟩
    · rename_i tid pref heq
      refine ⟨h1, h2, fun _ => ?_⟩
      by_cases hbank : ep.paymentMethod = "bank"
      · exact Or.inl hbank
      · by_cases hmp : ep.paymentMethod = "mpesa"
        · exact Or.inr hmp
        · obtain ⟨-, m, hmErr⟩ := h3 hbank hmp
          rw [heq] at hmErr
          exact absurd hmErr (by simp)

/-- Witness for C2 amended: the successful M-Pesa run of `epM`
discharges the success hypothesis of the method-selection conjunct. -/
theorem claim2_amended_witness :
    (processPayrollPayment envPending db0 epM ⟨1, 0⟩ "Salary").result.success = true ∧
    (epM.paymentMethod = "bank" ∨ epM.paymentMethod = "mpesa") :=
  ⟨by decide, (claim2_amended envPending db0 epM ⟨1, 0⟩ "Salary").2.2 (by decide)⟩

/-! ## Payout status vocabulary (C1) -/

/-- Counterexample to C1 as stated: verifying the Flutterwave payout of
`db0` under a verification response with an unclear status updates the
payout to `PENDING`, which is none of `PROCESSING`/`SUCCESS`/`FAILED`. -/
theorem claim1_counterexample :
    (verifyPayrollPayment envPending db0 "r1").fst.payouts.map Payout.status = ["PENDING"] ∧
    ("PENDING" == "PROCESSING" || "PENDING" == "SUCCESS" || "PENDING" == "FAILED") = false := by
  decide

/-- A status delivered by the verification phase is `SUCCESS`, `FAILED`
or `PENDING`. -/
theorem verifiedStatus_ok (env : Env) (payout : Payout) (s : String)
    (h : verifiedStatus env payout = .ok s) : payoutStatusOkB s = true := by
  unfold verifiedStatus at h
  split at h
  · split at h
    · exact absurd h (by simp)
    · split at h <;> { injection h with h; rw [← h]; decide }
  · split at h
    · injection h with h
      rw [← h]
      decide
    · dsimp only at h
      split at h
      · injection h with h; rw [← h]; decide
      · split at h <;> { injection h with h; rw [← h]; decide }

/-- `verifyPayrollPayment` rewrites the payout table pointwise: refs
and static fields survive, payouts with another ref are untouched, and
a touched payout receives a verified status. -/
theorem verifyPayrollPayment_payouts_shape (env : Env) (db : Db) (r : String) :
    ∃ g : Payout → Payout,
      (verifyPayrollPayment env db r).fst.payouts = db.payouts.map g ∧
      ∀ p, (g p).ref = p.ref ∧
        (p.ref ≠ r → g p = p) ∧
        (payoutStatusOkB (g p).status = true ∨ (g p).status = p.status) := by
  cases hf : db.payouts.find? (fun p => p.ref == r) with
  | none =>
    refine ⟨id, ?_, fun p => ⟨rfl, fun _ => rfl, Or.inr rfl⟩⟩
    rw [List.map_id]
    simp [verifyPayrollPayment, hf]
  | some payout =>
    cases hv : verifiedStatus env payout with
    | error m =>
      refine ⟨id, ?_, fun p => ⟨rfl, fun _ => rfl, Or.inr rfl⟩⟩
      rw [List.map_id]
      simp [verifyPayrollPayment, hf, hv]
    | ok status =>
      refine ⟨fun p => if p.ref == r then { p with status := status } else p, ?_, ?_⟩
      · simp only [verifyPayrollPayment, hf, hv]
        split
        · split
          · rfl
          · rfl
        · rfl
      · intro p
        dsimp only
        by_cases hpr : p.ref = r
        · rw [if_pos (beq_iff_eq.mpr hpr)]
          exact ⟨rfl, fun hne => absurd hpr hne,
            Or.inl (verifiedStatus_ok env payout status hv)⟩
        · rw [if_neg (by simp only [beq_iff_eq]; exact hpr)]
          exact ⟨rfl, fun _ => rfl, Or.inr rfl⟩

/-- `verifyPayrollPayment` preserves the status vocabulary. -/
theorem verifyPayrollPayment_preserves_statusOk (env : Env) (db : Db) (r : String)
    (h : db.payouts.all (fun p => payoutStatusOkB p.status) = true) :
    (verifyPayrollPayment env db r).fst.payouts.all
      (fun p => payoutStatusOkB p.status) = true := by
  obtain ⟨g, hmap, hg⟩ := verifyPayrollPayment_payouts_shape env db r
  rw [hmap, List.all_map, List.all_eq_true]
  intro p hp
  obtain ⟨-, -, hst | hst⟩ := hg p
  · exact hst
  · dsimp only [Function.comp]
    rw [hst]
    exact List.all_eq_true.mp h p hp

/-- The payout table after a `processPayrollPayment` run: unchanged, or
extended by one `PROCESSING` payout. -/
theorem processPayrollPayment_payouts_shape (env : Env) (db : Db) (ep : EmployeePayment)
    (month : JsDate) (description : String) :
    (processPayrollPayment env db ep month description).db.payouts = db.payouts ∨
    ∃ q, (processPayrollPayment env db ep month description).db.payouts =
        db.payouts ++ [q] ∧ q.status = "PROCESSING" := by
  cases hsucc : (processPayrollPayment env db ep month description).result.success with
  | false =>
    obtain ⟨m, hm⟩ := processPayrollPayment_fail_shape env db ep month description hsucc
    rw [hm]
    exact Or.inl (payrollFailureDb_fields db ep.employeeId m).1
  | true =>
    obtain ⟨e, tid, pref, he, hs⟩ :=
      processPayrollPayment_success_shape env db ep month description hsucc
    rw [hs]
    refine Or.inr ⟨{ ref := (jsOrStr pref (some ("PAYOUT_" ++ toString env.nowMs))).getD ""
                     employeeId := ep.employeeId
                     amount := ep.amount
                     status := "PROCESSING"
                     type := "SALARY"
                     bank := if ep.paymentMethod == "bank" then
                         jsOrStr ep.bankId (match employeeBank db e with
                                            | some b => some b.name
                                            | none => none)
                       else some "M-Pesa"
                     transactionId := tid
                     createdAt := env.now }, ?_, rfl⟩
    simp [applySuccess, addNotification, payslipUpsert_payouts]

/-- C1 amended: every payout status written by `processPayrollPayment`,
`verifyPayrollPayment` or `reconcilePayroll` is one of `PROCESSING`,
`SUCCESS`, `FAILED` or `PENDING` (the fourth value, `PENDING`, is
written by the verification path when the Flutterwave verification
reports an unclear status). -/
theorem claim1_amended (env : Env) (db : Db) (ep : EmployeePayment)
    (month : JsDate) (description : String) (pr : String)
    (h : db.payouts.all (fun p => payoutStatusOkB p.status) = true) :
    ((processPayrollPayment env db ep month description).db.payouts.all
        (fun p => payoutStatusOkB p.status) = true) ∧
    ((verifyPayrollPayment env db pr).fst.payouts.all
        (fun p => payoutStatusOkB p.status) = true) ∧
    ((reconcilePayroll env db month).payouts.all
        (fun p => payoutStatusOkB p.status) = true) := by
  refine ⟨?_, verifyPayrollPayment_preserves_statusOk env db pr h, ?_⟩
  · rcases processPayrollPayment_payouts_shape env db ep month description with hp | ⟨q, hp, hq⟩
    · rw [hp]; exact h
    · rw [hp, List.all_append, h]
      simp only [List.all_cons, List.all_nil, hq, Bool.true_and, Bool.and_true]
      decide
  · unfold reconcilePayroll
    have H : ∀ (l : List Payout) (d : Db),
        d.payouts.all (fun p => payoutStatusOkB p.status) = true →
        (l.foldl (fun d p => (verifyPayrollPayment env d p.ref).fst) d).payouts.all
          (fun p => payoutStatusOkB p.status) = true := by
      intro l
      induction l with
      | nil => intro d hd; exact hd
      | cons q l ih =>
        intro d hd
        exact ih _ (verifyPayrollPayment_preserves_statusOk env d q.ref hd)
    exact H _ db h

/-- Witness for C1 amended on the concrete database `db0`. -/
theorem claim1_amended_witness :
    db0.payouts.all (fun p => payoutStatusOkB p.status) = true ∧
    ((processPayrollPayment envPending db0 epM ⟨1, 0⟩ "Salary").db.payouts.all
        (fun p => payoutStatusOkB p.status) = true) ∧
    ((verifyPayrollPayment envPending db0 "r1").fst.payouts.all
        (fun p => payoutStatusOkB p.status) = true) ∧
    ((reconcilePayroll envPending db0 ⟨1, 0⟩).payouts.all
        (fun p => payoutStatusOkB p.status) = true) :=
  ⟨by decide, claim1_amended envPending db0 epM ⟨1, 0⟩ "Salary" "r1" (by decide)⟩

/-! ## Bulk payroll (C4) -/

/-- The bulk fold only ever appends to the result accumulator. -/
theorem bulkFold_acc (env : Env) (month : JsDate) (d : String) (ps : List EmployeePayment) :
    ∀ (db : Db) (acc : List ProcessPayrollResult),
      ps.foldl (bulkStep env month d) (db, acc) =
        ((ps.foldl (bulkStep env month d) (db, [])).1,
         acc ++ (ps.foldl (bulkStep env month d) (db, [])).2) := by
  induction ps with
  | nil =>
    intro db acc
    simp
  | cons ep ps ih =>
    intro db acc
    rw [List.foldl_cons, List.foldl_cons]
    simp only [bulkStep]
    rw [ih ((processPayrollPayment env db ep month d).db)
          (acc ++ [(processPayrollPayment env db ep month d).result]),
        ih ((processPayrollPayment env db ep month d).db)
          ([] ++ [(processPayrollPayment env db ep month d).result])]
    simp

/-- Unrolling `processBulkPayroll` one payment at a time. -/
theorem processBulkPayroll_cons (env : Env) (db : Db) (ep : EmployeePayment)
    (ps : List EmployeePayment) (month : JsDate) (d : String) :
    processBulkPayroll env db (ep :: ps) month d =
      ((processBulkPayroll env (processPayrollPayment env db ep month d).db ps month d).1,
       (processPayrollPayment env db ep month d).result ::
         (processBulkPayroll env (processPayrollPayment env db ep month d).db ps month d).2) := by
  unfold processBulkPayroll
  rw [List.foldl_cons]
  simp only [bulkStep]
  rw [bulkFold_acc env month d ps ((processPayrollPayment env db ep month d).db)
        ([] ++ [(processPayrollPayment env db ep month d).result])]
  simp

/-- C4: `processBulkPayroll` processes the payments sequentially in
input order — the i-th result is the result of running
`processPayrollPayment` on the i-th payment against the database state
left by the first i payments — and returns one result per payment. -/
theorem claim4_bulk_sequential (env : Env) (db : Db) (ps : List EmployeePayment)
    (month : JsDate) (d : String) :
    (processBulkPayroll env db ps month d).2.length = ps.length ∧
    ∀ i : Nat, (processBulkPayroll env db ps month d).2[i]? =
      (ps[i]?).map (fun ep =>
        (processPayrollPayment env (processBulkPayroll env db (ps.take i) month d).1
            ep month d).result) := by
  induction ps generalizing db with
  | nil =>
    refine ⟨rfl, ?_⟩
    intro i
    simp [processBulkPayroll]
  | cons ep ps ih =>
    rw [processBulkPayroll_cons]
    refine ⟨?_, ?_⟩
    · simp only [List.length_cons]
      rw [(ih (processPayrollPayment env db ep month d).db).1]
    · intro i
      cases i with
      | zero =>
        simp [processBulkPayroll]
      | succ n =>
        simp only [List.getElem?_cons_succ]
        rw [(ih (processPayrollPayment env db ep month d).db).2 n]
        rw [List.take_succ_cons, processBulkPayroll_cons]

/-! ## Reconciliation (C5) -/

/-- The `findMany` window `gte` first-of-month / `lt` first-of-next-month
selects exactly the payouts created in that calendar month. -/
theorem reconcileQuery_eq (month : JsDate) (p : Payout) :
    reconcileQuery month p =
      (p.type == "SALARY" && (p.createdAt.monthIdx == month.monthIdx) &&
        p.status == "PROCESSING") := by
  unfold reconcileQuery dateLe dateLt monthStart nextMonthStart
  rw [Bool.eq_iff_iff]
  simp only [Bool.and_eq_true, Bool.or_eq_true, decide_eq_true_eq, beq_iff_eq]
  constructor
  · rintro ⟨⟨⟨h1, h2⟩, h3⟩, h4⟩
    exact ⟨⟨h1, by omega⟩, h4⟩
  · rintro ⟨⟨h1, h2⟩, h3⟩
    exact ⟨⟨⟨h1, by omega⟩, by omega⟩, h3⟩

/-- A payout whose ref is never verified survives a verification fold
untouched. -/
theorem verifyFold_untouched (env : Env) (l : List Payout) :
    ∀ (d : Db) (p : Payout), p ∈ d.payouts → (∀ q ∈ l, p.ref ≠ q.ref) →
      p ∈ (l.foldl (fun d q => (verifyPayrollPayment env d q.ref).fst) d).payouts := by
  induction l with
  | nil =>
    intro d p hp _
    exact hp
  | cons q l ih =>
    intro d p hp hne
    rw [List.foldl_cons]
    apply ih
    · obtain ⟨g, hmap, hg⟩ := verifyPayrollPayment_payouts_shape env d q.ref
      rw [hmap]
      have hfix := (hg p).2.1 (hne q (by simp))
      rw [← hfix]
      exact List.mem_map_of_mem g hp
    · intro q' hq'
      exact hne q' (by simp [hq'])

/-- C5: `reconcilePayroll` selects exactly the salary payouts created
in the given calendar month that are still `PROCESSING`, runs
`verifyPayrollPayment` over exactly their refs in order, and leaves
every payout with any other ref untouched. -/
theorem claim5_reconcile (env : Env) (db : Db) (month : JsDate) :
    (db.payouts.filter (reconcileQuery month) =
      db.payouts.filter (fun p => p.type == "SALARY" &&
        (p.createdAt.monthIdx == month.monthIdx) && p.status == "PROCESSING")) ∧
    (reconcilePayroll env db month =
      ((db.payouts.filter (fun p => p.type == "SALARY" &&
          (p.createdAt.monthIdx == month.monthIdx) && p.status == "PROCESSING")).map
            Payout.ref).foldl
        (fun d r => (verifyPayrollPayment env d r).fst) db) ∧
    (∀ p ∈ db.payouts,
      p.ref ∉ (db.payouts.filter (reconcileQuery month)).map Payout.ref →
      p ∈ (reconcilePayroll env db month).payouts) := by
  have hA : db.payouts.filter (reconcileQuery month) =
      db.payouts.filter (fun p => p.type == "SALARY" &&
        (p.createdAt.monthIdx == month.monthIdx) && p.status == "PROCESSING") :=
    List.filter_congr (fun p _ => reconcileQuery_eq month p)
  refine ⟨hA, ?_, ?_⟩
  · rw [List.foldl_map, ← hA]
    rfl
  · intro p hp hnotin
    unfold reconcilePayroll
    have hl : ∀ q ∈ db.payouts.filter (reconcileQuery month), p.ref ≠ q.ref := by
      intro q hq heq
      exact hnotin (heq ▸ List.mem_map_of_mem Payout.ref hq)
    exact verifyFold_untouched env _ db p hp hl

/-- Witness for C5: the payout of `db0` is outside the month being
reconciled, so it survives the run untouched. -/
theorem claim5_witness : payout0 ∈ (reconcilePayroll envPending db0 ⟨5, 0⟩).payouts :=
  (claim5_reconcile envPending db0 ⟨5, 0⟩).2.2 payout0 (by decide) (by decide)

/-! ## Bank-creation endpoint (C7) -/

/-- Counterexample to C7 as stated: an authorized request with a
present name and code, where no bank carries the submitted code — per
the claim the bank is created and 201 returned — yet the route answers
500 and creates nothing, because the duplicate check uses the
untrimmed code while the row is created with the trimmed one. -/
theorem claim7_counterexample :
    bankPostAuthorized sessAdmin = true ∧
    jsTruthy bodyEq.name = true ∧
    jsTruthy bodyEq.code = true ∧
    bankWithCode dbBank " EQ" = false ∧
    (bankPost dbBank sessAdmin bodyEq).2.status = 500 ∧
    (bankPost dbBank sessAdmin bodyEq).1.banks = dbBank.banks := by
  decide

/-- C7 amended: the response status and the bank table of the POST
handler follow the spec functions `bankPostSpecStatus` /
`bankPostSpecBanks` — 401 unauthorized, 400 for missing fields or a
duplicate of the submitted code, 500 when only the trimmed code
collides, 201 with a created bank otherwise. -/
theorem claim7_amended (db : Db) (session : Option Session) (body : BankBody) :
    (bankPost db session body).2.status = bankPostSpecStatus db session body ∧
    (bankPost db session body).1.banks = bankPostSpecBanks db session body := by
  unfold bankPost bankPostSpecBanks bankPostSpecStatus
  split
  · simp
  · split
    · simp
    · dsimp only
      split
      · simp
      · split
        · simp
        · refine ⟨rfl, ?_⟩
          rw [if_pos rfl]
          dsimp only
          split
          · rfl
          · rfl

end HRIS
